import Mathlib

/-!
Shallow embedding of `src/src/realtime/realtimemap.ts`: the class
`GoogleRealtimeMap<T>`, a synchronization adapter that mirrors a remote
Google collaborative map (`_gmap`) in a local `ObservableMap` cache
(`_map`), forwarding local mutations to both and re-emitting remote
change events locally.

Modelling decisions, each tied to a source line:
* Values are JavaScript-like (`GVal`): primitives plus raw collaborative
  composites (`comp`, objects carrying a `type` tag of `List`,
  `EditableString` or `Map`, lines 267-282) and adapter wrappers around
  them (`wrapped`, standing for `GoogleRealtimeVector` /
  `GoogleRealtimeString` / nested `GoogleRealtimeMap` instances).
  JavaScript truthiness (`GVal.truthy`) drives the branch
  `oldVal ? 'change' : 'add'` at line 146 and the event classification at
  lines 111-117.
* The local cache `_map` is a `jupyterlab` `ObservableMap`, an external
  dependency backed by an ES6 `Map`: `set` stores any value (including
  `undefined`) and keeps the key present, `get` of an absent key yields
  `undefined`, `has`/`keys` report key presence.  Its own `changed`
  signal has no subscribers in this file, so the cache is embedded as a
  plain association list (`Entries`).  The remote `_gmap` is likewise a
  keyed collection; both are association lists whose operations keep the
  first occurrence of a key authoritative.
* Signal emissions on `this.changed` (lines 145, 120, 207) are recorded
  in an `events` log; `defineSignal` plumbing itself is external.
* The side effect `converters.get(key).to(newEntry).link(vec)` at line
  272 mutates only the freshly built wrapper and is dropped.
* `dispose` (lines 254-263) counts its one-time side effects
  (`removeAllEventListeners`, `_map.clear()`) so that "exactly once" is
  expressible.
-/

/-- Tags distinguishing the composite collaborative types recognised at
lines 267, 275 and 279 of the source (`List`, `EditableString`, `Map`). -/
inductive CompTag where
  | list
  | editableString
  | cmap
deriving DecidableEq

/-- JavaScript-like values stored in the local cache and the remote map:
primitives, raw collaborative composites (objects with a `type` tag and an
identity), and the adapter wrappers built around composites. -/
inductive GVal where
  | undefined
  | null
  | boolean (b : Bool)
  | num (n : Int)
  | str (s : String)
  | comp (tag : CompTag) (id : Nat)
  | wrapped (tag : CompTag) (id : Nat)
deriving DecidableEq

/-- JavaScript truthiness of a value: `undefined`, `null`, `false`, `0`
and the empty string are falsy, objects are truthy. -/
def GVal.truthy : GVal → Bool
  | .undefined => false
  | .null => false
  | .boolean b => b
  | .num n => n != 0
  | .str s => s != ""
  | .comp _ _ => true
  | .wrapped _ _ => true

/-- Entry list of a keyed map (local `ObservableMap` cache or remote
collaborative map): an association list from string keys to values. -/
abbrev Entries := List (String × GVal)

/-- Lookup of a key, first occurrence authoritative (ES6 `Map.get`,
returning `none` where JavaScript returns `undefined`). -/
def lookupEntry : Entries → String → Option GVal
  | [], _ => none
  | (k, v) :: rest, key => if k = key then some v else lookupEntry rest key

/-- Store a key-value pair: replace the first occurrence in place, or
append when the key is absent (ES6 `Map.set`). -/
def setEntry : Entries → String → GVal → Entries
  | [], key, val => [(key, val)]
  | (k, v) :: rest, key, val =>
    if k = key then (k, val) :: rest else (k, v) :: setEntry rest key val

/-- Remove every occurrence of a key (ES6 `Map.delete`; on the duplicate
free lists the operations maintain, this is removal of the one entry). -/
def removeEntry : Entries → String → Entries
  | [], _ => []
  | (k, v) :: rest, key =>
    if k = key then removeEntry rest key else (k, v) :: removeEntry rest key

/-- The keys of an entry list, in order. -/
def keysOf (l : Entries) : List String :=
  l.map Prod.fst

/-- A per-key converter (`IRealtimeConverter`): a bidirectional transform
between domain values and remote-representable values.  The source fields
`to` and `from` are Lean keywords, so they are embedded as `toG` and
`fromG`. -/
structure RealtimeConverter where
  toG : GVal → GVal
  fromG : GVal → GVal

/-- The `_converters` member: an optional converter per key name. -/
abbrev Converters := String → Option RealtimeConverter

/-- The empty converter map, the constructor default at line 50. -/
def noConverters : Converters := fun _ => none

/-- Change classification used by `ObservableMap.IChangedArgs`. -/
inductive ChangeType where
  | add
  | remove
  | change
deriving DecidableEq

/-- Payload of a `changed` signal emission (`ObservableMap.IChangedArgs`):
absent old or new values are the JavaScript `undefined`. -/
structure ChangedArgs where
  type : ChangeType
  key : String
  oldValue : GVal
  newValue : GVal
deriving DecidableEq

/-- A `VALUE_CHANGED` event delivered by the remote collaborative map
(lines 107-128): the affected key, raw old and new values, and whether the
change originated locally. -/
structure ValueChangedEvent where
  property : String
  oldValue : GVal
  newValue : GVal
  isLocal : Bool
deriving DecidableEq

/-- State of a `GoogleRealtimeMap` instance: the converter table, the
local cache `_map`, the remote map `_gmap`, the `_isDisposed` flag,
whether the remote handle is attached (`_gmap` non-null), the number of
live remote event listeners, two counters recording how often `dispose`
performed its listener-removal and cache-clearing side effects, and the
log of events emitted on the `changed` signal. -/
structure GoogleRealtimeMap where
  converters : Converters
  map : Entries
  gmap : Entries
  isDisposed : Bool
  gmapAttached : Bool
  listeners : Nat
  listenerRemovals : Nat
  cacheClears : Nat
  events : List ChangedArgs

/-- Constructor (lines 49-53): empty cache, no remote handle yet,
converters defaulting to the empty table. -/
def mkMap (conv : Converters) : GoogleRealtimeMap :=
  { converters := conv
    map := []
    gmap := []
    isDisposed := false
    gmapAttached := false
    listeners := 0
    listenerRemovals := 0
    cacheClears := 0
    events := [] }

/-- The JavaScript result of an optional lookup: the value when present,
`undefined` otherwise. -/
def orUndefined : Option GVal → GVal
  | some v => v
  | none => GVal.undefined

/-- The `readonly isLinkable: boolean = false` field (line 65). -/
def GoogleRealtimeMap.isLinkable : Bool := false

/-- The `readonly isLinked: boolean = false` field (line 72). -/
def GoogleRealtimeMap.isLinked : Bool := false

/-- Modelled from the spec: `toGoogleSynchronizable` lives in
`src/realtime/utils.ts`, which is not under `src/`.  Per the glossary a
converter maps a domain value to its remote-representable form; this
helper unwraps an adapter wrapper to the underlying collaborative object
and is the identity on already remote-representable values. -/
def toGoogleSynchronizable : GVal → GVal
  | .wrapped tag id => .comp tag id
  | v => v

/-- `_createNewEntry` (lines 265-286): falsy items pass through; a raw
composite is wrapped (a `List` additionally goes through the key's
converter when one exists); everything else passes through. -/
def createNewEntry (conv : Converters) (key : String) (item : GVal) : GVal :=
  if item.truthy = false then item
  else
    match item with
    | .comp .list id =>
      match conv key with
      | some c => c.fromG (GVal.wrapped .list id)
      | none => GVal.wrapped .list id
    | .comp .editableString id => GVal.wrapped .editableString id
    | .comp .cmap id => GVal.wrapped .cmap id
    | other => other

/-- `_createNewGoogleEntry` (lines 288-295): apply the key's converter
and unwrap when a converter exists, otherwise pass the item through. -/
def createNewGoogleEntry (conv : Converters) (key : String) (item : GVal) : GVal :=
  match conv key with
  | some c => toGoogleSynchronizable (c.toG item)
  | none => item

/-- One iteration of the population loop in the `googleObject` setter
(lines 102-105): store the reconstructed entry for one remote pair in the
local cache. -/
def populateStep (acc : GoogleRealtimeMap) (p : String × GVal) :
    GoogleRealtimeMap :=
  { acc with map := setEntry acc.map p.1 (createNewEntry acc.converters p.1 p.2) }

/-- The `googleObject` setter (lines 99-129): store the remote handle,
populate the local cache from the remote entries through
`_createNewEntry`, and register the `VALUE_CHANGED` listener. -/
def GoogleRealtimeMap.setGoogleObject (s : GoogleRealtimeMap) (g : Entries) :
    GoogleRealtimeMap :=
  let s1 := { s with gmap := g, gmapAttached := true }
  let s2 := g.foldl populateStep s1
  { s2 with listeners := s2.listeners + 1 }

/-- The `VALUE_CHANGED` listener body (lines 108-127): local events are
ignored; a non-local event is classified by truthiness of its old and new
values, the reconstructed entry for the new value is stored in the cache,
and one local change event is emitted. -/
def GoogleRealtimeMap.handleValueChanged (s : GoogleRealtimeMap)
    (evt : ValueChangedEvent) : GoogleRealtimeMap :=
  if evt.isLocal then s
  else
    let changeType : ChangeType :=
      if evt.oldValue.truthy && evt.newValue.truthy then .change
      else if evt.oldValue.truthy && !evt.newValue.truthy then .remove
      else .add
    let entry := createNewEntry s.converters evt.property evt.newValue
    { s with
      map := setEntry s.map evt.property entry
      events := s.events ++
        [{ type := changeType
           key := evt.property
           oldValue := evt.oldValue
           newValue := evt.newValue }] }

/-- `set` (lines 141-153): read the previous cache value, write the
converter image to the remote map, write the value to the cache, emit one
event classified by truthiness of the previous value, return the previous
value. -/
def GoogleRealtimeMap.set (s : GoogleRealtimeMap) (key : String) (value : GVal) :
    GVal × GoogleRealtimeMap :=
  let oldVal := orUndefined (lookupEntry s.map key)
  let s1 := { s with gmap := setEntry s.gmap key (createNewGoogleEntry s.converters key value) }
  let s2 := { s1 with map := setEntry s1.map key value }
  let s3 := { s2 with
    events := s2.events ++
      [{ type := if oldVal.truthy then ChangeType.change else ChangeType.add
         key := key
         oldValue := oldVal
         newValue := value }] }
  (oldVal, s3)

/-- `get` (lines 162-164): read from the local cache. -/
def GoogleRealtimeMap.get (s : GoogleRealtimeMap) (key : String) : GVal :=
  orUndefined (lookupEntry s.map key)

/-- `has` (lines 173-175): key presence in the local cache. -/
def GoogleRealtimeMap.has (s : GoogleRealtimeMap) (key : String) : Bool :=
  (lookupEntry s.map key).isSome

/-- `keys` (lines 182-184): the local cache's key list. -/
def GoogleRealtimeMap.keys (s : GoogleRealtimeMap) : List String :=
  keysOf s.map

/-- `values` (lines 191-193): the local cache's value list. -/
def GoogleRealtimeMap.values (s : GoogleRealtimeMap) : List GVal :=
  s.map.map Prod.snd

/-- The `size` getter (lines 79-81): the REMOTE map's entry count. -/
def GoogleRealtimeMap.size (s : GoogleRealtimeMap) : Nat :=
  s.gmap.length

/-- `delete` (lines 203-214): read the previous cache value, remove the
key from cache and remote map, emit one `remove` event carrying the
previous value and `undefined`, return the previous value. -/
def GoogleRealtimeMap.delete (s : GoogleRealtimeMap) (key : String) :
    GVal × GoogleRealtimeMap :=
  let oldVal := orUndefined (lookupEntry s.map key)
  let s1 := { s with map := removeEntry s.map key }
  let s2 := { s1 with gmap := removeEntry s1.gmap key }
  let s3 := { s2 with
    events := s2.events ++
      [{ type := ChangeType.remove
         key := key
         oldValue := oldVal
         newValue := GVal.undefined }] }
  (oldVal, s3)

/-- `link` (lines 222-224): a no-op. -/
def GoogleRealtimeMap.link (s : GoogleRealtimeMap) (_other : Entries) :
    GoogleRealtimeMap :=
  s

/-- `unlink` (lines 229-231): a no-op. -/
def GoogleRealtimeMap.unlink (s : GoogleRealtimeMap) : GoogleRealtimeMap :=
  s

/-- One iteration of the `clear` loop (lines 245-248): `this.delete` on
the key followed by a second `_gmap.delete` of the same key. -/
def GoogleRealtimeMap.clearStep (acc : GoogleRealtimeMap) (key : String) :
    GoogleRealtimeMap :=
  let acc1 := (acc.delete key).2
  { acc1 with gmap := removeEntry acc1.gmap key }

/-- `clear` (lines 241-249): snapshot the cache's key list and delete the
keys one at a time so that one signal is sent per key. -/
def GoogleRealtimeMap.clear (s : GoogleRealtimeMap) : GoogleRealtimeMap :=
  s.keys.foldl GoogleRealtimeMap.clearStep s

/-- `dispose` (lines 254-263): return immediately when already disposed;
otherwise clear the signal data, remove all remote event listeners, clear
the local cache, drop the remote handle and mark disposed.  The two
counters record that the listener removal and the cache clearing each
happened. -/
def GoogleRealtimeMap.dispose (s : GoogleRealtimeMap) : GoogleRealtimeMap :=
  if s.isDisposed then s
  else
    { s with
      listeners := 0
      listenerRemovals := s.listenerRemovals + 1
      map := []
      cacheClears := s.cacheClears + 1
      gmapAttached := false
      isDisposed := true }

/-- An interaction with the adapter: a local mutation (`set`, `delete`,
`clear`) or the arrival of a remote `VALUE_CHANGED` event. -/
inductive Op where
  | setK (key : String) (value : GVal)
  | deleteK (key : String)
  | clearAll
  | remote (evt : ValueChangedEvent)

/-- Run one interaction, discarding method return values. -/
def applyOp (s : GoogleRealtimeMap) : Op → GoogleRealtimeMap
  | .setK k v => (s.set k v).2
  | .deleteK k => (s.delete k).2
  | .clearAll => s.clear
  | .remote evt => s.handleValueChanged evt

/-- Run a sequence of interactions in order. -/
def applyOps (s : GoogleRealtimeMap) (ops : List Op) : GoogleRealtimeMap :=
  ops.foldl applyOp s

/-- Whether an interaction is a local adapter method call (not a remote
event delivery). -/
def Op.isLocalMutation : Op → Bool
  | .remote _ => false
  | _ => true

/-- Whether an interaction is a `set` of the given key. -/
def Op.setsKey (k : String) : Op → Bool
  | .setK key _ => key == k
  | _ => false

/-- The key was set through the adapter somewhere in the sequence. -/
def wasSet (k : String) (ops : List Op) : Bool :=
  ops.any (Op.setsKey k)

/-- The interaction neither sets the key locally nor delivers a non-local
remote event for it. -/
def Op.avoidsKey (k : String) : Op → Bool
  | .setK key _ => key != k
  | .remote evt => evt.isLocal || evt.property != k
  | _ => true

/-- Cache-to-remote correspondence at one key: the remote map holds
exactly the `_createNewGoogleEntry` image of the cache entry (so the two
entries are equal whenever the key has no converter). -/
def entryCorr (s : GoogleRealtimeMap) (k : String) : Prop :=
  lookupEntry s.gmap k =
    Option.map (createNewGoogleEntry s.converters k) (lookupEntry s.map k)

/-- A sample key. -/
def ka : String := "a"

/-- A second sample key. -/
def kb : String := "b"

/-- A third sample key. -/
def kc : String := "c"

/-- A converter whose remote image is constantly `7`. -/
def constConverter : RealtimeConverter :=
  { toG := fun _ => GVal.num 7, fromG := fun v => v }

/-- A converter table mapping only the key `ka` to `constConverter`. -/
def convA : Converters :=
  fun key => if key = ka then some constConverter else none

/-- A freshly constructed adapter with no converters. -/
def exEmpty : GoogleRealtimeMap := mkMap noConverters

/-- An adapter holding `ka` and `kb` after two local `set` calls. -/
def exAB : GoogleRealtimeMap :=
  ((exEmpty.set ka (GVal.num 1)).2.set kb (GVal.num 2)).2

/-- An adapter whose cache stores the falsy value `false` at `ka`. -/
def exFalse : GoogleRealtimeMap :=
  (exEmpty.set ka (GVal.boolean false)).2

/-- An adapter whose cache and remote map hold divergent key sets of
equal cardinality. -/
def exDiverge : GoogleRealtimeMap :=
  { mkMap noConverters with map := [(ka, GVal.num 1)], gmap := [(kb, GVal.num 2)] }

/-- An adapter holding the value `1` at `ka` after one local `set`. -/
def exA : GoogleRealtimeMap :=
  (exEmpty.set ka (GVal.num 1)).2

/-- An adapter whose remote map holds a key the local cache lacks. -/
def exRemoteOnly : GoogleRealtimeMap :=
  { mkMap noConverters with map := [], gmap := [(kb, GVal.num 2)] }

/-- A sample local (`isLocal = true`) remote-map event. -/
def evtLocal : ValueChangedEvent :=
  { property := ka, oldValue := GVal.num 1, newValue := GVal.num 2, isLocal := true }

/-- A sample non-local remove-classified event: truthy old value, absent
new value. -/
def evtRemove : ValueChangedEvent :=
  { property := ka, oldValue := GVal.num 1, newValue := GVal.undefined, isLocal := false }

theorem lookup_set_self (l : Entries) (k : String) (v : GVal) :
    lookupEntry (setEntry l k v) k = some v := by
  induction l with
  | nil => simp [setEntry, lookupEntry]
  | cons p rest ih =>
    obtain ⟨pk, pv⟩ := p
    by_cases h : pk = k
    · simp [setEntry, lookupEntry, h]
    · simp [setEntry, lookupEntry, h, ih]

theorem lookup_set_ne (l : Entries) (key k : String) (v : GVal) (h : key ≠ k) :
    lookupEntry (setEntry l key v) k = lookupEntry l k := by
  induction l with
  | nil => simp [setEntry, lookupEntry, h]
  | cons p rest ih =>
    obtain ⟨pk, pv⟩ := p
    by_cases hp : pk = key
    · subst hp
      simp [setEntry, lookupEntry, h]
    · simp [setEntry, lookupEntry, hp, ih]

theorem lookup_remove_self (l : Entries) (k : String) :
    lookupEntry (removeEntry l k) k = none := by
  induction l with
  | nil => simp [removeEntry, lookupEntry]
  | cons p rest ih =>
    obtain ⟨pk, pv⟩ := p
    by_cases h : pk = k
    · simp [removeEntry, h, ih]
    · simp [removeEntry, lookupEntry, h, ih]

theorem lookup_remove_ne (l : Entries) (key k : String) (h : key ≠ k) :
    lookupEntry (removeEntry l key) k = lookupEntry l k := by
  induction l with
  | nil => simp [removeEntry]
  | cons p rest ih =>
    obtain ⟨pk, pv⟩ := p
    by_cases hp : pk = key
    · subst hp
      simp [removeEntry, lookupEntry, h, Ne.symm h, ih]
    · simp [removeEntry, lookupEntry, hp, ih]

theorem lookup_remove_none (l : Entries) (key k : String)
    (h : lookupEntry l k = none) : lookupEntry (removeEntry l key) k = none := by
  by_cases hk : key = k
  · subst hk
    exact lookup_remove_self l key
  · rw [lookup_remove_ne l key k hk]
    exact h

theorem lookup_none_of_not_mem (l : Entries) (k : String)
    (h : k ∉ keysOf l) : lookupEntry l k = none := by
  induction l with
  | nil => rfl
  | cons p rest ih =>
    obtain ⟨pk, pv⟩ := p
    simp only [keysOf, List.map_cons, List.mem_cons] at h
    push_neg at h
    simp [lookupEntry, Ne.symm h.1, ih (by simpa [keysOf] using h.2)]

theorem removeEntry_of_not_mem (l : Entries) (k : String)
    (h : k ∉ keysOf l) : removeEntry l k = l := by
  induction l with
  | nil => rfl
  | cons p rest ih =>
    obtain ⟨pk, pv⟩ := p
    simp only [keysOf, List.map_cons, List.mem_cons] at h
    push_neg at h
    simp [removeEntry, Ne.symm h.1, ih (by simpa [keysOf] using h.2)]

/-- C1 (amended): `set(k, v)` writes `v` to the local cache and the
converter-transformed value to the remote map, returns the previous cache
value (`undefined` when absent), emits exactly one change event whose tag
is `change` when the previous value is truthy and `add` otherwise (so a
falsy previous value — absent, or a present `false`, `0`, empty string —
is tagged `add`); afterwards `get(k) == v` and `has(k) == true`. -/
theorem set_spec (s : GoogleRealtimeMap) (key : String) (value : GVal) :
    (s.set key value).1 = orUndefined (lookupEntry s.map key) ∧
    (s.set key value).2.get key = value ∧
    (s.set key value).2.has key = true ∧
    lookupEntry (s.set key value).2.gmap key =
      some (createNewGoogleEntry s.converters key value) ∧
    (s.set key value).2.events = s.events ++
      [{ type := if (orUndefined (lookupEntry s.map key)).truthy then
                   ChangeType.change
                 else ChangeType.add
         key := key
         oldValue := orUndefined (lookupEntry s.map key)
         newValue := value }] := by
  refine ⟨rfl, ?_, ?_, ?_, rfl⟩
  · simp [GoogleRealtimeMap.set, GoogleRealtimeMap.get, lookup_set_self,
      orUndefined]
  · simp [GoogleRealtimeMap.set, GoogleRealtimeMap.has, lookup_set_self]
  · simp [GoogleRealtimeMap.set, lookup_set_self]

/-- C1 counterexample: with the falsy value `false` stored at `ka`, the
key is present (`has` is true) yet a subsequent `set` emits an event
tagged `add`, not `change` as the claim requires for a present key. -/
theorem set_change_tag_counterexample :
    exFalse.has ka = true ∧
    (exFalse.set ka (GVal.num 1)).2.events.getLast? =
      some { type := ChangeType.add
             key := ka
             oldValue := GVal.boolean false
             newValue := GVal.num 1 } := by
  decide

/-- C4: `delete(k)` removes `k` from both the local cache and the remote
map, returns the previous cache value (`undefined` when absent), and
emits exactly one `remove` event carrying that previous value as
`oldValue` and `undefined` as `newValue`; afterwards `has(k) == false`. -/
theorem delete_spec (s : GoogleRealtimeMap) (key : String) :
    (s.delete key).1 = orUndefined (lookupEntry s.map key) ∧
    (s.delete key).2.has key = false ∧
    lookupEntry (s.delete key).2.gmap key = none ∧
    (s.delete key).2.events = s.events ++
      [{ type := ChangeType.remove
         key := key
         oldValue := orUndefined (lookupEntry s.map key)
         newValue := GVal.undefined }] := by
  refine ⟨rfl, ?_, ?_, rfl⟩
  · simp [GoogleRealtimeMap.delete, GoogleRealtimeMap.has, lookup_remove_self]
  · simp [GoogleRealtimeMap.delete, lookup_remove_self]

/-- C8: `link` and `unlink` are no-ops — they leave the whole adapter
state (cache, remote map, event log) unchanged — and the readonly fields
`isLinkable` and `isLinked` are `false`. -/
theorem link_unlink_spec (s : GoogleRealtimeMap) (other : Entries) :
    s.link other = s ∧ s.unlink = s ∧
    GoogleRealtimeMap.isLinkable = false ∧
    GoogleRealtimeMap.isLinked = false :=
  ⟨rfl, rfl, rfl, rfl⟩

/-- C10: `delete(k)` on a key absent from the local cache still removes
the key from the remote map, still emits one `remove` event with both
`oldValue` and `newValue` equal to `undefined`, and returns `undefined`. -/
theorem delete_absent_spec (s : GoogleRealtimeMap) (key : String)
    (h : lookupEntry s.map key = none) :
    (s.delete key).1 = GVal.undefined ∧
    (s.delete key).2.gmap = removeEntry s.gmap key ∧
    (s.delete key).2.events = s.events ++
      [{ type := ChangeType.remove
         key := key
         oldValue := GVal.undefined
         newValue := GVal.undefined }] := by
  refine ⟨?_, rfl, ?_⟩
  · show orUndefined (lookupEntry s.map key) = GVal.undefined
    rw [h]
    rfl
  · show s.events ++
      [{ type := ChangeType.remove
         key := key
         oldValue := orUndefined (lookupEntry s.map key)
         newValue := GVal.undefined }] = _
    rw [h]
    rfl

/-- C10 witness: evaluating `delete` at the key `ka` on a fresh adapter,
whose cache does not contain `ka`. -/
theorem delete_absent_spec_witness :
    lookupEntry exEmpty.map ka = none ∧
    ((exEmpty.delete ka).1 = GVal.undefined ∧
      (exEmpty.delete ka).2.gmap = removeEntry exEmpty.gmap ka ∧
      (exEmpty.delete ka).2.events = exEmpty.events ++
        [{ type := ChangeType.remove
           key := ka
           oldValue := GVal.undefined
           newValue := GVal.undefined }]) :=
  ⟨rfl, delete_absent_spec exEmpty ka rfl⟩

theorem clearStep_map (s : GoogleRealtimeMap) (k : String) :
    (s.clearStep k).map = removeEntry s.map k := rfl

theorem clearStep_converters (s : GoogleRealtimeMap) (k : String) :
    (s.clearStep k).converters = s.converters := rfl

theorem clearStep_events (s : GoogleRealtimeMap) (k : String) :
    (s.clearStep k).events = s.events ++
      [{ type := ChangeType.remove
         key := k
         oldValue := orUndefined (lookupEntry s.map k)
         newValue := GVal.undefined }] := rfl

theorem clearStep_gmap (s : GoogleRealtimeMap) (k : String) :
    (s.clearStep k).gmap = removeEntry (removeEntry s.gmap k) k := rfl

theorem clear_go (entries : Entries) : ∀ s : GoogleRealtimeMap, s.map = entries →
    (keysOf entries).Nodup →
    (List.foldl GoogleRealtimeMap.clearStep s (keysOf entries)).map = [] ∧
    (List.foldl GoogleRealtimeMap.clearStep s (keysOf entries)).events =
      s.events ++ entries.map (fun p =>
        { type := ChangeType.remove
          key := p.1
          oldValue := p.2
          newValue := GVal.undefined }) := by
  induction entries with
  | nil =>
    intro s hmap _
    exact ⟨hmap, by simp [keysOf]⟩
  | cons p rest ih =>
    intro s hmap hnd
    obtain ⟨k0, v0⟩ := p
    have hk0 : k0 ∉ keysOf rest := by
      have := hnd
      simp only [keysOf, List.map_cons, List.nodup_cons] at this
      exact fun hmem => this.1 (by simpa [keysOf] using hmem)
    have hnd2 : (keysOf rest).Nodup := by
      have := hnd
      simp only [keysOf, List.map_cons, List.nodup_cons] at this
      simpa [keysOf] using this.2
    have hstepmap : (s.clearStep k0).map = rest := by
      rw [clearStep_map, hmap]
      show removeEntry ((k0, v0) :: rest) k0 = rest
      simp [removeEntry, removeEntry_of_not_mem rest k0 hk0]
    have hlook : lookupEntry s.map k0 = some v0 := by
      rw [hmap]
      simp [lookupEntry]
    have hfold :
        List.foldl GoogleRealtimeMap.clearStep s (keysOf ((k0, v0) :: rest)) =
          List.foldl GoogleRealtimeMap.clearStep (s.clearStep k0) (keysOf rest) := by
      simp [keysOf]
    have hrec := ih (s.clearStep k0) hstepmap hnd2
    rw [hfold]
    refine ⟨hrec.1, ?_⟩
    rw [hrec.2, clearStep_events, hlook]
    simp [orUndefined]

/-- C5: `clear()` deletes the keys one at a time: afterwards `keys()` is
empty, and the event log grew by exactly one `remove` event per key that
was present in the cache before the call, each carrying that key's prior
value. -/
theorem clear_spec (s : GoogleRealtimeMap) (h : (keysOf s.map).Nodup) :
    s.clear.keys = [] ∧
    s.clear.events = s.events ++ s.map.map (fun p =>
      { type := ChangeType.remove
        key := p.1
        oldValue := p.2
        newValue := GVal.undefined }) := by
  have hg := clear_go s.map s rfl h
  refine ⟨?_, hg.2⟩
  show keysOf (List.foldl GoogleRealtimeMap.clearStep s (keysOf s.map)).map = []
  rw [hg.1]
  rfl

/-- C5 witness: evaluating `clear` on a two-key adapter. -/
theorem clear_spec_witness :
    (keysOf exAB.map).Nodup ∧
    (exAB.clear.keys = [] ∧
      exAB.clear.events = exAB.events ++ exAB.map.map (fun p =>
        { type := ChangeType.remove
          key := p.1
          oldValue := p.2
          newValue := GVal.undefined })) :=
  ⟨by decide, clear_spec exAB (by decide)⟩

/-- C6: the first `dispose()` call detaches the remote listeners, clears
the local cache and marks the map disposed; `dispose` is idempotent, so a
second call returns the same state and the listener-removal and
cache-clearing side effects happen exactly once. -/
theorem dispose_spec (s : GoogleRealtimeMap) (h : s.isDisposed = false) :
    s.dispose.isDisposed = true ∧
    s.dispose.listeners = 0 ∧
    s.dispose.map = [] ∧
    s.dispose.listenerRemovals = s.listenerRemovals + 1 ∧
    s.dispose.cacheClears = s.cacheClears + 1 ∧
    s.dispose.dispose = s.dispose := by
  simp [GoogleRealtimeMap.dispose, h]

/-- C6 witness: evaluating `dispose` on a freshly constructed adapter. -/
theorem dispose_spec_witness :
    exEmpty.isDisposed = false ∧
    (exEmpty.dispose.isDisposed = true ∧
      exEmpty.dispose.listeners = 0 ∧
      exEmpty.dispose.map = [] ∧
      exEmpty.dispose.listenerRemovals = exEmpty.listenerRemovals + 1 ∧
      exEmpty.dispose.cacheClears = exEmpty.cacheClears + 1 ∧
      exEmpty.dispose.dispose = exEmpty.dispose) :=
  ⟨rfl, dispose_spec exEmpty rfl⟩

theorem createNewEntry_falsy (conv : Converters) (key : String) (item : GVal)
    (h : item.truthy = false) : createNewEntry conv key item = item := by
  simp [createNewEntry, h]

/-- C2 (amended): a local (`isLocal = true`) remote-map event is ignored
outright.  A non-local event makes the cache store, under the event's
key, the reconstructed entry for the raw new value (so for a
remove-classified event — truthy `oldValue`, falsy `newValue` — the cache
keeps the key mapped to that falsy value: `get` reports it and `has`
stays true, rather than the key disappearing), leaves other cache keys
and the remote handle untouched, and emits exactly one local change event
classified `change` / `remove` / `add` by JavaScript truthiness (not bare
presence) of `oldValue` and `newValue`. -/
theorem handleValueChanged_spec (s : GoogleRealtimeMap) (evt : ValueChangedEvent) :
    (evt.isLocal = true → s.handleValueChanged evt = s) ∧
    (evt.isLocal = false →
      lookupEntry (s.handleValueChanged evt).map evt.property =
        some (createNewEntry s.converters evt.property evt.newValue) ∧
      (∀ k, k ≠ evt.property →
        lookupEntry (s.handleValueChanged evt).map k = lookupEntry s.map k) ∧
      (s.handleValueChanged evt).gmap = s.gmap ∧
      (evt.newValue.truthy = false →
        (s.handleValueChanged evt).has evt.property = true ∧
        (s.handleValueChanged evt).get evt.property = evt.newValue) ∧
      (s.handleValueChanged evt).events = s.events ++
        [{ type :=
             if evt.oldValue.truthy && evt.newValue.truthy then ChangeType.change
             else if evt.oldValue.truthy && !evt.newValue.truthy then
               ChangeType.remove
             else ChangeType.add
           key := evt.property
           oldValue := evt.oldValue
           newValue := evt.newValue }]) := by
  obtain ⟨p, ov, nv, il⟩ := evt
  constructor
  · intro h
    have hil : il = true := h
    subst hil
    rfl
  · intro h
    have hil : il = false := h
    subst hil
    refine ⟨?_, ?_, rfl, ?_, rfl⟩
    · show lookupEntry (setEntry s.map p (createNewEntry s.converters p nv)) p =
        some (createNewEntry s.converters p nv)
      exact lookup_set_self _ _ _
    · intro k hk
      show lookupEntry (setEntry s.map p (createNewEntry s.converters p nv)) k =
        lookupEntry s.map k
      exact lookup_set_ne _ _ _ _ (Ne.symm hk)
    · intro hf
      constructor
      · show (lookupEntry (setEntry s.map p (createNewEntry s.converters p nv)) p).isSome = true
        rw [lookup_set_self]
        rfl
      · show orUndefined
          (lookupEntry (setEntry s.map p (createNewEntry s.converters p nv)) p) = nv
        rw [lookup_set_self, createNewEntry_falsy _ _ _ hf]
        rfl

/-- C2 counterexample: after the non-local remove-classified event
(`oldValue = 1`, `newValue` absent) for the key `ka`, the local cache
STILL reports the key as present (`has` is true), contradicting the claim
that the key no longer reports a value; and a non-local event whose
`oldValue` is the present-but-falsy `0` and whose `newValue` is `5` is
classified `add`, not `change` as presence/absence classification
requires. -/
theorem remote_change_counterexample :
    (exA.handleValueChanged evtRemove).has ka = true ∧
    (exA.handleValueChanged
        { property := kb
          oldValue := GVal.num 0
          newValue := GVal.num 5
          isLocal := false }).events.getLast? =
      some { type := ChangeType.add
             key := kb
             oldValue := GVal.num 0
             newValue := GVal.num 5 } := by
  decide

/-- C2 witness: the amended theorem evaluated at a concrete local event
(ignored outright) and at the concrete non-local remove-classified event
`evtRemove` (one emitted `remove` event). -/
theorem handleValueChanged_spec_witness :
    (evtLocal.isLocal = true ∧ exA.handleValueChanged evtLocal = exA) ∧
    (evtRemove.isLocal = false ∧
      (exA.handleValueChanged evtRemove).events = exA.events ++
        [{ type := ChangeType.remove
           key := ka
           oldValue := GVal.num 1
           newValue := GVal.undefined }]) :=
  ⟨⟨rfl, (handleValueChanged_spec exA evtLocal).1 rfl⟩,
   ⟨rfl, ((handleValueChanged_spec exA evtRemove).2 rfl).2.2.2.2⟩⟩

theorem foldl_clearStep_converters (ks : List String) :
    ∀ s : GoogleRealtimeMap,
      (List.foldl GoogleRealtimeMap.clearStep s ks).converters = s.converters := by
  induction ks with
  | nil => intro s; rfl
  | cons key rest ih =>
    intro s
    rw [List.foldl_cons, ih, clearStep_converters]

theorem entryCorr_clearStep (s : GoogleRealtimeMap) (key k : String)
    (h : entryCorr s k) : entryCorr (s.clearStep key) k := by
  show lookupEntry (removeEntry (removeEntry s.gmap key) key) k =
    Option.map (createNewGoogleEntry s.converters k)
      (lookupEntry (removeEntry s.map key) k)
  by_cases hk : key = k
  · subst hk
    rw [lookup_remove_self, lookup_remove_self]
    rfl
  · rw [lookup_remove_ne _ _ _ hk, lookup_remove_ne _ _ _ hk,
      lookup_remove_ne _ _ _ hk]
    exact h

theorem entryCorr_foldl_clearStep (k : String) (ks : List String) :
    ∀ s : GoogleRealtimeMap, entryCorr s k →
      entryCorr (List.foldl GoogleRealtimeMap.clearStep s ks) k := by
  induction ks with
  | nil => intro s h; exact h
  | cons key rest ih =>
    intro s h
    exact ih _ (entryCorr_clearStep s key k h)

theorem entryCorr_set_self (s : GoogleRealtimeMap) (k : String) (v : GVal) :
    entryCorr (s.set k v).2 k := by
  show lookupEntry (setEntry s.gmap k (createNewGoogleEntry s.converters k v)) k =
    Option.map (createNewGoogleEntry s.converters k) (lookupEntry (setEntry s.map k v) k)
  rw [lookup_set_self, lookup_set_self]
  rfl

theorem entryCorr_applyOp (s : GoogleRealtimeMap) (op : Op) (k : String)
    (hl : op.isLocalMutation = true) (h : entryCorr s k) :
    entryCorr (applyOp s op) k := by
  cases op with
  | setK key v =>
    by_cases hk : key = k
    · subst hk
      exact entryCorr_set_self s key v
    · show lookupEntry (setEntry s.gmap key (createNewGoogleEntry s.converters key v)) k =
        Option.map (createNewGoogleEntry s.converters k)
          (lookupEntry (setEntry s.map key v) k)
      rw [lookup_set_ne _ _ _ _ hk, lookup_set_ne _ _ _ _ hk]
      exact h
  | deleteK key =>
    show lookupEntry (removeEntry s.gmap key) k =
      Option.map (createNewGoogleEntry s.converters k)
        (lookupEntry (removeEntry s.map key) k)
    by_cases hk : key = k
    · subst hk
      rw [lookup_remove_self, lookup_remove_self]
      rfl
    · rw [lookup_remove_ne _ _ _ hk, lookup_remove_ne _ _ _ hk]
      exact h
  | clearAll =>
    show entryCorr (List.foldl GoogleRealtimeMap.clearStep s s.keys) k
    exact entryCorr_foldl_clearStep k s.keys s h
  | remote evt => simp [Op.isLocalMutation] at hl

theorem entryCorr_applyOps (k : String) (ops : List Op) :
    ∀ s : GoogleRealtimeMap, (∀ op ∈ ops, op.isLocalMutation = true) →
      entryCorr s k → entryCorr (applyOps s ops) k := by
  induction ops with
  | nil => intro s _ h; exact h
  | cons op rest ih =>
    intro s hloc h
    exact ih (applyOp s op)
      (fun o ho => hloc o (List.mem_cons_of_mem _ ho))
      (entryCorr_applyOp s op k (hloc op (List.mem_cons_self _ _)) h)

theorem wasSet_entryCorr (k : String) (ops : List Op) :
    ∀ s : GoogleRealtimeMap, (∀ op ∈ ops, op.isLocalMutation = true) →
      wasSet k ops = true → entryCorr (applyOps s ops) k := by
  induction ops with
  | nil =>
    intro s _ hset
    simp [wasSet] at hset
  | cons op rest ih =>
    intro s hloc hset
    by_cases hs : Op.setsKey k op = true
    · have hafter : entryCorr (applyOp s op) k := by
        cases op with
        | setK key v =>
          have hkey : key = k := by
            simpa [Op.setsKey] using hs
          subst hkey
          exact entryCorr_set_self s key v
        | deleteK key => simp [Op.setsKey] at hs
        | clearAll => simp [Op.setsKey] at hs
        | remote evt => simp [Op.setsKey] at hs
      exact entryCorr_applyOps k rest (applyOp s op)
        (fun o ho => hloc o (List.mem_cons_of_mem _ ho)) hafter
    · have hrest : wasSet k rest = true := by
        have : Op.setsKey k op = true ∨ wasSet k rest = true := by
          simpa [wasSet, List.any_cons, Bool.or_eq_true] using hset
        exact this.resolve_left hs
      exact ih (applyOp s op)
        (fun o ho => hloc o (List.mem_cons_of_mem _ ho)) hrest

/-- C3 (amended): after any sequence of local adapter mutations (`set`,
`delete`, `clear`) with no interleaved remote changes, every key that was
set through the adapter satisfies the cache-to-remote correspondence: the
remote map holds exactly the `_createNewGoogleEntry` image (the key's
converter followed by unwrapping) of the local cache entry; in
particular, for a key with no registered converter, local and remote
entries are equal. -/
theorem local_ops_correspondence (ops : List Op) (s : GoogleRealtimeMap)
    (k : String) (hloc : ∀ op ∈ ops, op.isLocalMutation = true)
    (hset : wasSet k ops = true) :
    entryCorr (applyOps s ops) k ∧
    ((applyOps s ops).converters k = none →
      lookupEntry (applyOps s ops).gmap k = lookupEntry (applyOps s ops).map k) := by
  have hcorr := wasSet_entryCorr k ops s hloc hset
  refine ⟨hcorr, fun hnone => ?_⟩
  have hcorr2 : lookupEntry (applyOps s ops).gmap k =
      Option.map (createNewGoogleEntry (applyOps s ops).converters k)
        (lookupEntry (applyOps s ops).map k) := hcorr
  rw [hcorr2]
  cases hcase : lookupEntry (applyOps s ops).map k with
  | none => rfl
  | some v => simp [createNewGoogleEntry, hnone]

/-- C3 counterexample: with the constant converter registered for `ka`,
one local `set` of `ka` to `1` leaves the local cache holding `1` but the
remote map holding `7` — the entries for a key previously set through the
adapter are NOT equal. -/
theorem set_converter_counterexample :
    (∀ op ∈ [Op.setK ka (GVal.num 1)], op.isLocalMutation = true) ∧
    wasSet ka [Op.setK ka (GVal.num 1)] = true ∧
    lookupEntry (applyOps (mkMap convA) [Op.setK ka (GVal.num 1)]).map ka =
      some (GVal.num 1) ∧
    lookupEntry (applyOps (mkMap convA) [Op.setK ka (GVal.num 1)]).gmap ka =
      some (GVal.num 7) := by
  decide

/-- C3 witness: the amended correspondence evaluated after one concrete
`set` on a converter-free adapter. -/
theorem local_ops_correspondence_witness :
    (∀ op ∈ [Op.setK ka (GVal.num 1)], op.isLocalMutation = true) ∧
    wasSet ka [Op.setK ka (GVal.num 1)] = true ∧
    entryCorr (applyOps (mkMap noConverters) [Op.setK ka (GVal.num 1)]) ka :=
  ⟨by decide, by decide,
    (local_ops_correspondence [Op.setK ka (GVal.num 1)] (mkMap noConverters) ka
      (by decide) (by decide)).1⟩

theorem lookup_foldl_clearStep_none (k : String) (ks : List String) :
    ∀ s : GoogleRealtimeMap, lookupEntry s.map k = none →
      lookupEntry (List.foldl GoogleRealtimeMap.clearStep s ks).map k = none := by
  induction ks with
  | nil => intro s h; exact h
  | cons key rest ih =>
    intro s h
    refine ih _ ?_
    rw [clearStep_map]
    exact lookup_remove_none _ _ _ h

theorem absent_applyOp (s : GoogleRealtimeMap) (op : Op) (k : String)
    (ha : op.avoidsKey k = true) (h : lookupEntry s.map k = none) :
    lookupEntry (applyOp s op).map k = none := by
  cases op with
  | setK key v =>
    have hk : key ≠ k := by simpa [Op.avoidsKey] using ha
    show lookupEntry (setEntry s.map key v) k = none
    rw [lookup_set_ne _ _ _ _ hk]
    exact h
  | deleteK key =>
    show lookupEntry (removeEntry s.map key) k = none
    exact lookup_remove_none _ _ _ h
  | clearAll =>
    show lookupEntry (List.foldl GoogleRealtimeMap.clearStep s s.keys).map k = none
    exact lookup_foldl_clearStep_none k s.keys s h
  | remote evt =>
    obtain ⟨p, ov, nv, il⟩ := evt
    cases il with
    | true => exact h
    | false =>
      have hp : p ≠ k := by simpa [Op.avoidsKey] using ha
      show lookupEntry (setEntry s.map p (createNewEntry s.converters p nv)) k = none
      rw [lookup_set_ne _ _ _ _ hp]
      exact h

theorem absent_applyOps (k : String) (ops : List Op) :
    ∀ s : GoogleRealtimeMap, (∀ op ∈ ops, op.avoidsKey k = true) →
      lookupEntry s.map k = none →
      lookupEntry (applyOps s ops).map k = none := by
  induction ops with
  | nil => intro s _ h; exact h
  | cons op rest ih =>
    intro s hops h
    exact ih (applyOp s op)
      (fun o ho => hops o (List.mem_cons_of_mem _ ho))
      (absent_applyOp s op k (hops op (List.mem_cons_self _ _)) h)

theorem lookup_foldl_populate_none (k : String) (g : Entries) :
    ∀ acc : GoogleRealtimeMap, (∀ p ∈ g, p.1 ≠ k) →
      lookupEntry acc.map k = none →
      lookupEntry (List.foldl populateStep acc g).map k = none := by
  induction g with
  | nil => intro acc _ h; exact h
  | cons p rest ih =>
    intro acc hg h
    refine ih _ (fun q hq => hg q (List.mem_cons_of_mem _ hq)) ?_
    show lookupEntry (setEntry acc.map p.1 (createNewEntry acc.converters p.1 p.2)) k = none
    rw [lookup_set_ne _ _ _ _ (hg p (List.mem_cons_self _ _))]
    exact h

theorem setGoogleObject_lookup_none (conv : Converters) (g : Entries)
    (k : String) (hg : k ∉ keysOf g) :
    lookupEntry ((mkMap conv).setGoogleObject g).map k = none := by
  have hg2 : ∀ p ∈ g, p.1 ≠ k := by
    intro p hp hpk
    apply hg
    rw [← hpk]
    simpa [keysOf] using List.mem_map_of_mem Prod.fst hp
  show lookupEntry
      (List.foldl populateStep { mkMap conv with gmap := g, gmapAttached := true } g).map
      k = none
  exact lookup_foldl_populate_none k g _ hg2 rfl

/-- C7: a key absent from the remote map at attach time that is never set
locally and never the subject of a non-local remote event stays absent:
`has` returns false and `get` returns `undefined` (not an error) after
any such interaction sequence. -/
theorem untouched_key_spec (conv : Converters) (g : Entries) (ops : List Op)
    (k : String) (hg : k ∉ keysOf g)
    (hops : ∀ op ∈ ops, op.avoidsKey k = true) :
    (applyOps ((mkMap conv).setGoogleObject g) ops).has k = false ∧
    (applyOps ((mkMap conv).setGoogleObject g) ops).get k = GVal.undefined := by
  have h0 := setGoogleObject_lookup_none conv g k hg
  have h1 := absent_applyOps k ops _ hops h0
  constructor
  · simp [GoogleRealtimeMap.has, h1]
  · simp [GoogleRealtimeMap.get, h1, orUndefined]

/-- C7 witness: attaching a remote map holding only `kb`, then setting
`kc` locally, leaves `ka` reported absent. -/
theorem untouched_key_spec_witness :
    (ka ∉ keysOf [(kb, GVal.num 2)]) ∧
    (∀ op ∈ [Op.setK kc (GVal.num 3)], op.avoidsKey ka = true) ∧
    ((applyOps ((mkMap noConverters).setGoogleObject [(kb, GVal.num 2)])
        [Op.setK kc (GVal.num 3)]).has ka = false ∧
      (applyOps ((mkMap noConverters).setGoogleObject [(kb, GVal.num 2)])
        [Op.setK kc (GVal.num 3)]).get ka = GVal.undefined) :=
  ⟨by decide, by decide,
    untouched_key_spec noConverters [(kb, GVal.num 2)] [Op.setK kc (GVal.num 3)] ka
      (by decide) (by decide)⟩

/-- C9 (amended): `size` reads the REMOTE map's entry count while
`keys()` reads the local cache, so `size = keys().length` is guaranteed
whenever cache and remote hold the same keys; when the two diverge the
counts CAN differ (witnessed by a remote-only key), though divergent key
sets of equal cardinality still yield equal counts. -/
theorem size_spec :
    (∀ s : GoogleRealtimeMap,
      (keysOf s.map).Perm (keysOf s.gmap) → s.size = s.keys.length) ∧
    (∃ s : GoogleRealtimeMap,
      keysOf s.map ≠ keysOf s.gmap ∧ s.size ≠ s.keys.length) := by
  constructor
  · intro s h
    have hlen := h.length_eq
    simp only [keysOf, List.length_map] at hlen
    show s.gmap.length = (keysOf s.map).length
    simp [keysOf, hlen]
  · refine ⟨exRemoteOnly, ?_, ?_⟩ <;> decide

/-- C9 counterexample: a state whose cache holds exactly `ka` and whose
remote map holds exactly `kb` — the key sets diverge, yet `size` and
`keys().length` are both `1`, contradicting the claim that divergence
makes them differ. -/
theorem size_diverge_counterexample :
    ka ∈ keysOf exDiverge.map ∧
    ka ∉ keysOf exDiverge.gmap ∧
    exDiverge.size = exDiverge.keys.length := by
  decide

/-- C9 witness: the guarantee direction evaluated on the two-key adapter,
whose cache and remote key lists agree. -/
theorem size_spec_witness :
    (keysOf exAB.map).Perm (keysOf exAB.gmap) ∧
    exAB.size = exAB.keys.length :=
  ⟨by decide, size_spec.1 exAB (by decide)⟩
